import Mathlib

/-!
Shallow embedding of the flight-price client in
`src/travel_agents/agent.py` of the TravelIdeaGeneratorAgent repository:
the Amadeus OAuth2 token cache (`_get_amadeus_access_token`), the date
normalizer (`format_date_for_api`) and the flight-offer search client
(`search_flights`).

Modelling choices:
* `datetime` timestamps are integers (seconds); `datetime.now()` is an
  explicit `now` argument.
* The two module-level globals `_amadeus_access_token` and
  `_amadeus_token_expiry` are a `Cache` record threaded explicitly.
* The HTTP transport is an oracle argument (`HttpOutcome`): what the
  endpoint would do if called.  Each embedded function also reports how
  many requests it issued, so "no network call" claims are statable.
* Python exceptions are values: a function either returns or raises
  (`PyOutcome`), and `except` clauses are modelled by the branch
  structure below, including the fact that an exception raised inside an
  `except` handler is not caught by a sibling handler of the same `try`.
* `datetime.strptime` with `"%d/%m/%Y"` / `"%Y-%m-%d"` is modelled after
  CPython `_strptime`: `%d` matches the regex `3[01]|[12]\x7bdigit\x7d|0[1-9]|[1-9]`
  (one or two ASCII digits, value 1..31), `%m` matches `1[0-2]|0[1-9]|[1-9]`
  (value 1..12), `%Y` matches exactly four digits, the whole string must
  be consumed, and the resulting `datetime(y, m, d)` requires
  `1 <= y <= 9999` and the day to exist in the month.
  `strftime("%Y-%m-%d")` is modelled as zero-padded fields, as in the
  `datetime` documentation.
-/

namespace TravelAgents

/-! ## Dates: `format_date_for_api` (src/travel_agents/agent.py lines 91-106) -/

def isDigitChar (c : Char) : Bool := 48 ≤ c.toNat && c.toNat ≤ 57

def digitVal (c : Char) : Nat := c.toNat - 48

def isLeap (y : Nat) : Bool := (y % 4 == 0 && y % 100 != 0) || y % 400 == 0

def daysInMonth (y m : Nat) : Nat :=
  if m = 2 then (if isLeap y then 29 else 28)
  else if m = 4 ∨ m = 6 ∨ m = 9 ∨ m = 11 then 30
  else 31

structure Date where
  year : Nat
  month : Nat
  day : Nat
deriving Repr, DecidableEq

/-- `datetime(year, month, day)` construction succeeds only for real
calendar dates with `MINYEAR = 1` (the month range and `day >= 1` are
already guaranteed by the `strptime` regexes below). -/
def mkValidDate (y m d : Nat) : Option Date :=
  if 1 ≤ y ∧ 1 ≤ d ∧ d ≤ daysInMonth y m then some ⟨y, m, d⟩ else none

/-- CPython `_strptime` field regex for `%d` (maxVal 31) and `%m`
(maxVal 12): two digits are accepted when their value is in `1..maxVal`,
otherwise a single digit `1..9` is accepted.  Regex backtracking cannot
rescue a failed two-digit read here, because the character after a
one-digit read would then be a digit where the format expects a
separator or the end of the string. -/
def readTwoOrOne (maxVal : Nat) : List Char → Option (Nat × List Char)
  | c1 :: c2 :: rest =>
    if isDigitChar c1 && isDigitChar c2 then
      let v := 10 * digitVal c1 + digitVal c2
      if 1 ≤ v && v ≤ maxVal then some (v, rest) else none
    else if isDigitChar c1 && 1 ≤ digitVal c1 then some (digitVal c1, c2 :: rest)
    else none
  | [c1] =>
    if isDigitChar c1 && 1 ≤ digitVal c1 then some (digitVal c1, []) else none
  | [] => none

/-- CPython `_strptime` field regex for `%Y`: exactly four digits. -/
def readYear4 : List Char → Option (Nat × List Char)
  | a :: b :: c :: d :: rest =>
    if isDigitChar a && isDigitChar b && isDigitChar c && isDigitChar d then
      some (1000 * digitVal a + 100 * digitVal b + 10 * digitVal c + digitVal d, rest)
    else none
  | _ => none

/-- `datetime.strptime(s, "%d/%m/%Y")` (full match required). -/
def parseDDMMYYYY (cs : List Char) : Option Date :=
  match readTwoOrOne 31 cs with
  | some (d, '/' :: r1) =>
    match readTwoOrOne 12 r1 with
    | some (m, '/' :: r2) =>
      match readYear4 r2 with
      | some (y, []) => mkValidDate y m d
      | _ => none
    | _ => none
  | _ => none

/-- `datetime.strptime(s, "%Y-%m-%d")` (full match required). -/
def parseYYYYMMDD (cs : List Char) : Option Date :=
  match readYear4 cs with
  | some (y, '-' :: r1) =>
    match readTwoOrOne 12 r1 with
    | some (m, '-' :: r2) =>
      match readTwoOrOne 31 r2 with
      | some (d, []) => mkValidDate y m d
      | _ => none
    | _ => none
  | _ => none

def digitChar (n : Nat) : Char := Char.ofNat (48 + n)

def pad2Chars (n : Nat) : List Char := [digitChar (n / 10), digitChar (n % 10)]

def pad4Chars (n : Nat) : List Char :=
  [digitChar (n / 1000), digitChar (n / 100 % 10), digitChar (n / 10 % 10), digitChar (n % 10)]

/-- `dt_object.strftime("%Y-%m-%d")`, zero-padded fields. -/
def formatISOChars (dt : Date) : List Char :=
  pad4Chars dt.year ++ '-' :: (pad2Chars dt.month ++ '-' :: pad2Chars dt.day)

inductive DateError where
  | invalidFormat (input : String)
deriving Repr, DecidableEq

/-- `format_date_for_api` (lines 91-106).  The dispatch is on the
separator character, exactly as in the source: a string containing `/`
is only ever tried as `DD/MM/YYYY`, otherwise a string containing `-` is
only ever tried as `YYYY-MM-DD`, and anything else raises.  The raised
`ValueError` message embeds the offending input, modelled by the
`invalidFormat` payload. -/
def format_date_for_api (date_str : String) : Except DateError String :=
  let cs := date_str.toList
  if cs.elem '/' then
    match parseDDMMYYYY cs with
    | some dt => .ok (String.mk (formatISOChars dt))
    | none => .error (.invalidFormat date_str)
  else if cs.elem '-' then
    match parseYYYYMMDD cs with
    | some dt => .ok (String.mk (formatISOChars dt))
    | none => .error (.invalidFormat date_str)
  else .error (.invalidFormat date_str)

/-! ## HTTP transport oracle and Python exception values -/

/-- What the endpoint would do if called: time out, fail at the
transport level before a response object exists (`requests` raises a
`RequestException` that is not a `Timeout`, and the local variable
`response` is never bound), or deliver a response.  `body = none` means
the body is not valid JSON (`response.json()` raises). -/
inductive HttpOutcome (β : Type) where
  | timeout
  | connFail
  | response (status : Nat) (body : Option β)
deriving Repr, DecidableEq

/-- The Python exceptions this component can raise. -/
inductive PyError where
  | valueError (msg : String)
  | connectionError (msg : String)
  | unboundLocal (name : String)
deriving Repr, DecidableEq

/-- A Python call either returns a value or raises an exception. -/
inductive PyOutcome (α : Type) where
  | returned (a : α)
  | raised (e : PyError)
deriving Repr, DecidableEq

/-! ## Token cache: `_get_amadeus_access_token` (lines 15-70) -/

/-- The module globals `_amadeus_access_token` and
`_amadeus_token_expiry`. -/
structure Cache where
  accessToken : Option String
  tokenExpiry : Option Int
deriving Repr, DecidableEq

/-- `AMADEUS_CLIENT_ID` / `AMADEUS_CLIENT_SECRET` as read by
`os.getenv`: absent gives `none`. -/
structure Env where
  clientId : Option String
  clientSecret : Option String
deriving Repr, DecidableEq

/-- Python truthiness of an optional string: `None` and `""` are falsy. -/
def truthyOpt : Option String → Bool
  | none => false
  | some s => s != ""

/-- Line 27: `if _amadeus_access_token and _amadeus_token_expiry and
datetime.now() < _amadeus_token_expiry` (a `datetime` object is always
truthy; an empty token string is falsy). -/
def cacheHit (st : Cache) (now : Int) : Bool :=
  match st.accessToken, st.tokenExpiry with
  | some tok, some exp => tok != "" && decide (now < exp)
  | _, _ => false

/-- JSON body expected from the token endpoint (line 52-55):
`access_token` is read with `token_data['access_token']` (a missing key
raises `KeyError`), `expires_in` with `token_data.get('expires_in', 3500)`. -/
structure TokenBody where
  access_token : Option String
  expires_in : Option Int
deriving Repr, DecidableEq

def configErrorMsg : String :=
  "Amadeus Client ID and/or Client Secret not configured. Please set AMADEUS_CLIENT_ID and AMADEUS_CLIENT_SECRET in your .env file."

def tokenTimeoutMsg : String := "Amadeus token request timed out."

def tokenFailMsg : String := "Failed to obtain Amadeus token"

def tokenInvalidMsg : String :=
  "Invalid response from Amadeus token endpoint (missing access_token or expires_in)."

structure TokenResult where
  result : Except PyError String
  cache : Cache
  requests : Nat
deriving Repr

/-- The refresh path of `_get_amadeus_access_token` (lines 31-70),
reached when the cache check on line 27 fails.  Branches, in source
order:
* lines 32-36: missing or empty credentials raise `ValueError` before
  any network call;
* line 60: `requests.exceptions.Timeout` raises `ConnectionError`;
* lines 62-66: any other `RequestException` raised by `requests.post`
  itself leaves `response` unbound, so the handler raises
  `UnboundLocalError` at `if response and response.text`; when
  `raise_for_status` raised (status >= 400) or `response.json()` raised
  (malformed body), `response` is bound and the handler raises
  `ConnectionError`;
* line 67: missing `access_token` key raises `KeyError`, re-raised as
  `ValueError`, with the globals untouched;
* lines 54-58: otherwise the token is cached with
  `expiry = now + expires_in - 60`, defaulting `expires_in` to 3500. -/
def refreshAmadeusToken (env : Env) (st : Cache) (now : Int)
    (endpoint : HttpOutcome TokenBody) : TokenResult :=
  if !truthyOpt env.clientId || !truthyOpt env.clientSecret then
    ⟨.error (.valueError configErrorMsg), st, 0⟩
  else
    match endpoint with
    | .timeout => ⟨.error (.connectionError tokenTimeoutMsg), st, 1⟩
    | .connFail => ⟨.error (.unboundLocal "response"), st, 1⟩
    | .response status body =>
      if 400 ≤ status then ⟨.error (.connectionError tokenFailMsg), st, 1⟩
      else
        match body with
        | none => ⟨.error (.connectionError tokenFailMsg), st, 1⟩
        | some tb =>
          match tb.access_token with
          | none => ⟨.error (.valueError tokenInvalidMsg), st, 1⟩
          | some tok =>
            ⟨.ok tok, ⟨some tok, some (now + tb.expires_in.getD 3500 - 60)⟩, 1⟩

/-- `_get_amadeus_access_token` (lines 19-70).  `requests` counts POST
attempts to the token endpoint.  Line 27: a valid cached token is
returned with no network call; otherwise the refresh path runs. -/
def _get_amadeus_access_token (env : Env) (st : Cache) (now : Int)
    (endpoint : HttpOutcome TokenBody) : TokenResult :=
  match st.accessToken, st.tokenExpiry with
  | some tok, some exp =>
    if tok != "" && decide (now < exp) then ⟨.ok tok, st, 0⟩
    else refreshAmadeusToken env st now endpoint
  | _, _ => refreshAmadeusToken env st now endpoint

/-! ## Flight search: `search_flights` (lines 109-204) -/

/-- `offer['price']`: the code reads `price.get('total')` and
`price.get('currency', 'USD')`. -/
structure PriceInfo where
  total : Option String
  currency : Option String
deriving Repr, DecidableEq

/-- One element of the response `data` array. -/
structure Offer where
  price : Option PriceInfo
deriving Repr, DecidableEq

/-- One element of the `errors` array the code looks for in non-2xx
bodies (lines 195-199). -/
structure AmadeusError where
  code : Option String
  detail : Option String
  title : Option String
deriving Repr, DecidableEq

/-- JSON body of a flight-offers response: the code reads only
`data.get('data')` on the success path and `errors` in the error
handler. -/
structure FlightBody where
  data : Option (List Offer)
  errors : Option (List AmadeusError)
deriving Repr, DecidableEq

/-- Nonempty digit run to a number. -/
def natOfDigits (cs : List Char) : Nat :=
  cs.foldl (fun acc c => 10 * acc + digitVal c) 0

/-- Unsigned decimal literal: digits, optionally a point and more
digits, at least one digit in total. -/
def pyFloatCore (cs : List Char) : Option ℚ :=
  let intPart := cs.takeWhile isDigitChar
  let rest := cs.dropWhile isDigitChar
  match rest with
  | [] => if intPart.isEmpty then none else some (natOfDigits intPart : ℚ)
  | '.' :: frac =>
    if frac.all isDigitChar && !(intPart.isEmpty && frac.isEmpty) then
      some ((natOfDigits intPart : ℚ) + (natOfDigits frac : ℚ) / (10 : ℚ) ^ frac.length)
    else none
  | _ => none

/-- `float(s)` on the plain decimal fragment of Python float syntax
(optional sign, then an unsigned decimal literal): the only shapes a
price string takes.  `none` models the `ValueError` float raises on
anything else. -/
def pyFloat (s : String) : Option ℚ :=
  match s.toList with
  | '-' :: rest => (pyFloatCore rest).map Neg.neg
  | '+' :: rest => pyFloatCore rest
  | cs => pyFloatCore cs

/-- The distinct outcomes `search_flights` serialises with `json.dumps`.
Each error constructor corresponds to one `return json.dumps(\x7b"error":
...\x7d)` site; `success` carries `min_price` and `currency` (the
accompanying free-text `message` built from the airport codes adds no
information and is not modelled). -/
inductive SearchResult where
  | success (min_price : ℚ) (currency : String)
  | authErrorOut (e : PyError)
  | invalidDateOut (input : String)
  | timeoutOut
  | requestFailedOut
  | noOffersOut
  | processingErrorOut
deriving Repr, DecidableEq

structure SearchOutcome where
  result : PyOutcome SearchResult
  cache : Cache
  tokenRequests : Nat
  flightRequests : Nat
deriving Repr, DecidableEq

/-- The request and response classification of lines 160-204 of
`search_flights` (the outer `try` block), reached once the token and
both formatted dates are in hand: one GET is issued (`flightRequests`
is 1 on every branch), and the outcome is reduced as follows.
* line 189: a transport timeout is returned as a timeout result;
* lines 191-202: a `RequestException` with a bound `response`
  (`raise_for_status` on status >= 400, or a JSON decode failure) is
  returned as a request-failed result; but when `requests.get` itself
  raised, `response` is unbound and the handler itself raises
  `UnboundLocalError`, which no sibling handler catches, so the
  exception escapes `search_flights`;
* lines 167-187: on a parsed body, a nonempty `data` array has its
  FIRST element examined: a truthy (present, nonempty) `price.total`
  that parses as a float is returned as success with
  `currency = price.get('currency', 'USD')`; a non-parsing total raises
  inside the `try` and is returned as a processing-error result; in
  every other case — no `data` key, empty array, or falsy total — the
  generic no-offers result is returned.  Nothing on this path inspects
  `errors` or any other nested status field. -/
def issueFlightRequest (cache : Cache) (tokenRequests : Nat)
    (flightEndpoint : HttpOutcome FlightBody) : SearchOutcome :=
  match flightEndpoint with
  | .timeout => ⟨.returned .timeoutOut, cache, tokenRequests, 1⟩
  | .connFail => ⟨.raised (.unboundLocal "response"), cache, tokenRequests, 1⟩
  | .response status body =>
    if 400 ≤ status then
      ⟨.returned .requestFailedOut, cache, tokenRequests, 1⟩
    else
      match body with
      | none => ⟨.returned .requestFailedOut, cache, tokenRequests, 1⟩
      | some fb =>
        match fb.data with
        | some (offer0 :: _) =>
          let price_info := offer0.price.getD ⟨none, none⟩
          let currency := price_info.currency.getD "USD"
          match price_info.total with
          | some t =>
            if t = "" then ⟨.returned .noOffersOut, cache, tokenRequests, 1⟩
            else
              match pyFloat t with
              | some v => ⟨.returned (.success v currency), cache, tokenRequests, 1⟩
              | none => ⟨.returned .processingErrorOut, cache, tokenRequests, 1⟩
          | none => ⟨.returned .noOffersOut, cache, tokenRequests, 1⟩
        | _ => ⟨.returned .noOffersOut, cache, tokenRequests, 1⟩

/-- `search_flights` (lines 109-204).  The other Python parameters
(`num_adults`, `max_price`, `max_results`, `session_id`) only shape the
outgoing request, which the `flightEndpoint` oracle abstracts, and the
airport codes additionally appear only in the success message; they are
kept as arguments for fidelity.  Control flow, in source order:
* lines 123-126: token acquisition; every exception (`ValueError`,
  `ConnectionError`, anything else) is caught and returned as an
  authentication-error result with no flight request;
* lines 137-141: both dates run through `format_date_for_api`, the
  departure date first; a `ValueError` is returned as an
  invalid-date-format result with no flight request (there is no
  comparison of the two dates anywhere);
* lines 160-204: the GET is issued and classified by
  `issueFlightRequest`. -/
def search_flights (env : Env) (st : Cache) (now : Int)
    (tokenEndpoint : HttpOutcome TokenBody)
    (flightEndpoint : HttpOutcome FlightBody)
    (departure_airport_code destination_airport_code : String)
    (start_date end_date : String) : SearchOutcome :=
  let auth := _get_amadeus_access_token env st now tokenEndpoint
  match auth.result with
  | .error e => ⟨.returned (.authErrorOut e), auth.cache, auth.requests, 0⟩
  | .ok _access_token =>
    match format_date_for_api start_date with
    | .error (.invalidFormat s) =>
      ⟨.returned (.invalidDateOut s), auth.cache, auth.requests, 0⟩
    | .ok _formatted_departure_date =>
      match format_date_for_api end_date with
      | .error (.invalidFormat s) =>
        ⟨.returned (.invalidDateOut s), auth.cache, auth.requests, 0⟩
      | .ok _formatted_return_date =>
        issueFlightRequest auth.cache auth.requests flightEndpoint

/-- The date a given input string denotes under the dispatch of
`format_date_for_api` (used to state chronological-order claims). -/
def parsedDate (s : String) : Option Date :=
  let cs := s.toList
  if cs.elem '/' then parseDDMMYYYY cs
  else if cs.elem '-' then parseYYYYMMDD cs
  else none

/-- Chronological order on calendar dates. -/
def dateLt (a b : Date) : Bool :=
  decide (a.year < b.year ∨ (a.year = b.year ∧
    (a.month < b.month ∨ (a.month = b.month ∧ a.day < b.day))))

/-! ## Helper lemmas: digits and the strptime/strftime roundtrip -/

/-- A parsed date is a real calendar date in the `datetime` range. -/
def ValidD (dt : Date) : Prop :=
  1 ≤ dt.year ∧ dt.year ≤ 9999 ∧ 1 ≤ dt.month ∧ dt.month ≤ 12 ∧
    1 ≤ dt.day ∧ dt.day ≤ daysInMonth dt.year dt.month

theorem digitVal_digitChar {k : Nat} (h : k ≤ 9) : digitVal (digitChar k) = k := by
  interval_cases k <;> decide

theorem isDigitChar_digitChar {k : Nat} (h : k ≤ 9) : isDigitChar (digitChar k) = true := by
  interval_cases k <;> decide

theorem digitChar_ne_slash {k : Nat} (h : k ≤ 9) : digitChar k ≠ '/' := by
  interval_cases k <;> decide

theorem digitVal_le_9 {c : Char} (h : isDigitChar c = true) : digitVal c ≤ 9 := by
  simp only [isDigitChar, Bool.and_eq_true, decide_eq_true_eq] at h
  simp only [digitVal]
  omega

theorem daysInMonth_le_31 (y m : Nat) : daysInMonth y m ≤ 31 := by
  simp only [daysInMonth]
  split_ifs <;> omega

theorem readYear4_pad4 {y : Nat} (h : y ≤ 9999) (rest : List Char) :
    readYear4 (pad4Chars y ++ rest) = some (y, rest) := by
  have h1 : y / 1000 ≤ 9 := by omega
  have h2 : y / 100 % 10 ≤ 9 := by omega
  have h3 : y / 10 % 10 ≤ 9 := by omega
  have h4 : y % 10 ≤ 9 := by omega
  simp only [pad4Chars, List.cons_append, List.nil_append, readYear4,
    isDigitChar_digitChar h1, isDigitChar_digitChar h2, isDigitChar_digitChar h3,
    isDigitChar_digitChar h4, Bool.and_self, if_true,
    digitVal_digitChar h1, digitVal_digitChar h2, digitVal_digitChar h3,
    digitVal_digitChar h4, Option.some.injEq, Prod.mk.injEq]
  exact ⟨by omega, trivial⟩

theorem readTwoOrOne_pad2 {maxV n : Nat} (h1 : 1 ≤ n) (h2 : n ≤ maxV) (h99 : n ≤ 99)
    (rest : List Char) :
    readTwoOrOne maxV (pad2Chars n ++ rest) = some (n, rest) := by
  have ha : n / 10 ≤ 9 := by omega
  have hb : n % 10 ≤ 9 := by omega
  have hv : 10 * (n / 10) + n % 10 = n := by omega
  simp only [pad2Chars, List.cons_append, List.nil_append, readTwoOrOne,
    isDigitChar_digitChar ha, isDigitChar_digitChar hb, Bool.and_self, if_true,
    digitVal_digitChar ha, digitVal_digitChar hb, hv]
  simp [h1, h2]

theorem readTwoOrOne_bounds {maxV : Nat} (h9 : 9 ≤ maxV) {cs rest : List Char} {v : Nat}
    (h : readTwoOrOne maxV cs = some (v, rest)) : 1 ≤ v ∧ v ≤ maxV := by
  match cs with
  | [] => simp [readTwoOrOne] at h
  | [c1] =>
    simp only [readTwoOrOne] at h
    split_ifs at h with hc
    simp only [Option.some.injEq, Prod.mk.injEq] at h
    simp only [Bool.and_eq_true, decide_eq_true_eq] at hc
    have := digitVal_le_9 hc.1
    omega
  | c1 :: c2 :: r =>
    simp only [readTwoOrOne] at h
    split_ifs at h with hc hv hd
    · simp only [Option.some.injEq, Prod.mk.injEq] at h
      simp only [Bool.and_eq_true, decide_eq_true_eq] at hv
      omega
    · simp only [Option.some.injEq, Prod.mk.injEq] at h
      simp only [Bool.and_eq_true, decide_eq_true_eq] at hd
      have := digitVal_le_9 hd.1
      omega

theorem readYear4_le {cs rest : List Char} {y : Nat}
    (h : readYear4 cs = some (y, rest)) : y ≤ 9999 := by
  match cs with
  | [] => simp [readYear4] at h
  | [a] => simp [readYear4] at h
  | [a, b] => simp [readYear4] at h
  | [a, b, c] => simp [readYear4] at h
  | a :: b :: c :: d :: r =>
    simp only [readYear4] at h
    split_ifs at h with hc
    simp only [Option.some.injEq, Prod.mk.injEq] at h
    simp only [Bool.and_eq_true] at hc
    have ha := digitVal_le_9 hc.1.1.1
    have hb := digitVal_le_9 hc.1.1.2
    have hcc := digitVal_le_9 hc.1.2
    have hd := digitVal_le_9 hc.2
    omega

theorem mkValidDate_some {y m d : Nat} {dt : Date} (h : mkValidDate y m d = some dt) :
    dt = ⟨y, m, d⟩ ∧ 1 ≤ y ∧ 1 ≤ d ∧ d ≤ daysInMonth y m := by
  simp only [mkValidDate] at h
  split_ifs at h with hc
  simp only [Option.some.injEq] at h
  exact ⟨h.symm, hc.1, hc.2.1, hc.2.2⟩

theorem parseDDMMYYYY_valid {cs : List Char} {dt : Date}
    (h : parseDDMMYYYY cs = some dt) : ValidD dt := by
  simp only [parseDDMMYYYY] at h
  split at h
  all_goals try exact absurd h (by simp)
  rename_i d r1 hd
  split at h
  all_goals try exact absurd h (by simp)
  rename_i m r2 hm
  split at h
  all_goals try exact absurd h (by simp)
  rename_i y r3 hy
  obtain ⟨heq, hy1, hd1, hdm⟩ := mkValidDate_some h
  obtain ⟨hd2, hd3⟩ := readTwoOrOne_bounds (by omega) hd
  obtain ⟨hm1, hm2⟩ := readTwoOrOne_bounds (by omega) hm
  have hy2 := readYear4_le hy
  subst heq
  exact ⟨hy1, hy2, hm1, hm2, hd1, hdm⟩

theorem parseYYYYMMDD_valid {cs : List Char} {dt : Date}
    (h : parseYYYYMMDD cs = some dt) : ValidD dt := by
  simp only [parseYYYYMMDD] at h
  split at h
  all_goals try exact absurd h (by simp)
  rename_i y r1 hy
  split at h
  all_goals try exact absurd h (by simp)
  rename_i m r2 hm
  split at h
  all_goals try exact absurd h (by simp)
  rename_i d r3 hd
  obtain ⟨heq, hy1, hd1, hdm⟩ := mkValidDate_some h
  obtain ⟨hd2, hd3⟩ := readTwoOrOne_bounds (by omega) hd
  obtain ⟨hm1, hm2⟩ := readTwoOrOne_bounds (by omega) hm
  have hy2 := readYear4_le hy
  subst heq
  exact ⟨hy1, hy2, hm1, hm2, hd1, hdm⟩

/-- The strftime output of a valid date parses back, as `YYYY-MM-DD`, to
the same date. -/
theorem parseYYYYMMDD_formatISOChars {dt : Date} (h : ValidD dt) :
    parseYYYYMMDD (formatISOChars dt) = some dt := by
  obtain ⟨hy1, hy2, hm1, hm2, hd1, hd2⟩ := h
  have hd31 : dt.day ≤ 31 := le_trans hd2 (daysInMonth_le_31 dt.year dt.month)
  have hmk : mkValidDate dt.year dt.month dt.day = some dt := by
    simp only [mkValidDate, if_pos (⟨hy1, hd1, hd2⟩ : _ ∧ _ ∧ _)]
  have hlast : readTwoOrOne 31 (pad2Chars dt.day) = some (dt.day, []) := by
    have := readTwoOrOne_pad2 hd1 hd31 (by omega) ([] : List Char)
    rwa [List.append_nil] at this
  simp only [formatISOChars, parseYYYYMMDD, readYear4_pad4 hy2,
    readTwoOrOne_pad2 hm1 hm2 (by omega), hlast, hmk]

theorem slash_not_mem_formatISOChars {dt : Date} (h : ValidD dt) :
    ('/' : Char) ∉ formatISOChars dt := by
  obtain ⟨hy1, hy2, hm1, hm2, hd1, hd2⟩ := h
  have hd31 : dt.day ≤ 31 := le_trans hd2 (daysInMonth_le_31 dt.year dt.month)
  simp only [formatISOChars, pad4Chars, pad2Chars, List.cons_append, List.nil_append,
    List.mem_cons, List.not_mem_nil, or_false, not_or]
  refine ⟨?_, ?_, ?_, ?_, by decide, ?_, ?_, by decide, ?_, ?_⟩ <;>
    exact fun he => digitChar_ne_slash (by omega) he.symm

theorem dash_mem_formatISOChars (dt : Date) : ('-' : Char) ∈ formatISOChars dt := by
  simp [formatISOChars, pad4Chars, pad2Chars]

/-- `format_date_for_api` accepts an input only via `parsedDate`. -/
theorem format_date_for_api_eq_ok {s r : String} (h : format_date_for_api s = .ok r) :
    ∃ dt, parsedDate s = some dt ∧ r = String.mk (formatISOChars dt) := by
  simp only [format_date_for_api] at h
  split_ifs at h with h1 h2
  · cases hp : parseDDMMYYYY s.toList with
    | none => rw [hp] at h; exact absurd h (by simp)
    | some dt =>
      rw [hp] at h
      simp only [Except.ok.injEq] at h
      exact ⟨dt, by simp_all [parsedDate], h.symm⟩
  · cases hp : parseYYYYMMDD s.toList with
    | none => rw [hp] at h; exact absurd h (by simp)
    | some dt =>
      rw [hp] at h
      simp only [Except.ok.injEq] at h
      exact ⟨dt, by simp_all [parsedDate], h.symm⟩

/-- Conversely, a `parsedDate` success determines the output of
`format_date_for_api`. -/
theorem format_date_for_api_of_parsedDate {s : String} {dt : Date}
    (h : parsedDate s = some dt) :
    format_date_for_api s = .ok (String.mk (formatISOChars dt)) := by
  simp only [parsedDate] at h
  simp only [format_date_for_api]
  split_ifs at h ⊢ <;> simp_all

theorem parsedDate_valid {s : String} {dt : Date} (h : parsedDate s = some dt) :
    ValidD dt := by
  simp only [parsedDate] at h
  split_ifs at h
  · exact parseDDMMYYYY_valid h
  · exact parseYYYYMMDD_valid h

/-- A failed cache check always routes to the refresh path. -/
theorem getAccessToken_miss {env : Env} {st : Cache} {now : Int}
    {ep : HttpOutcome TokenBody} (hc : cacheHit st now = false) :
    _get_amadeus_access_token env st now ep = refreshAmadeusToken env st now ep := by
  obtain ⟨a, e⟩ := st
  cases a <;> cases e <;> simp_all [_get_amadeus_access_token, cacheHit]

/-- Once the token and both formatted dates are in hand, the rest of
`search_flights` is the request classification. -/
theorem search_flights_reduce {env : Env} {st : Cache} {now : Int}
    {ep : HttpOutcome TokenBody} {fep : HttpOutcome FlightBody}
    {dep dst sd ed tok fsd fed : String}
    (htok : (_get_amadeus_access_token env st now ep).result = .ok tok)
    (h1 : format_date_for_api sd = .ok fsd)
    (h2 : format_date_for_api ed = .ok fed) :
    search_flights env st now ep fep dep dst sd ed =
      issueFlightRequest (_get_amadeus_access_token env st now ep).cache
        (_get_amadeus_access_token env st now ep).requests fep := by
  simp only [search_flights, htok, h1, h2]

/-! ## The claims -/

/-- C5: for every date string matching one of the two accepted formats
(so that `format_date_for_api` accepts it and returns `r`), the
normalizer is idempotent: running it on its own output `r` returns that
same `r`. -/
theorem format_date_for_api_idempotent (s r : String)
    (h : format_date_for_api s = .ok r) :
    format_date_for_api r = .ok r := by
  obtain ⟨dt, hdt, rfl⟩ := format_date_for_api_eq_ok h
  have hv := parsedDate_valid hdt
  have hpd : parsedDate (String.mk (formatISOChars dt)) = some dt := by
    have htl : (String.mk (formatISOChars dt)).toList = formatISOChars dt := rfl
    have hnos : ((formatISOChars dt).elem '/') = false := by
      simp [List.elem_iff, slash_not_mem_formatISOChars hv]
    have hdash : ((formatISOChars dt).elem '-') = true := by
      simp [List.elem_iff, dash_mem_formatISOChars dt]
    simp only [parsedDate, htl, hnos, hdash, Bool.false_eq_true, if_false, if_true,
      parseYYYYMMDD_formatISOChars hv]
  exact format_date_for_api_of_parsedDate hpd

/-- C5 witness: `"01/07/2025"` is accepted with output `"2025-07-01"`,
and normalizing that output again returns it unchanged. -/
theorem format_date_for_api_idempotent_witness :
    format_date_for_api "2025-07-01" = .ok "2025-07-01" :=
  format_date_for_api_idempotent "01/07/2025" "2025-07-01" rfl

/-- C6: for every input string matching neither `DD/MM/YYYY` nor
`YYYY-MM-DD` (neither parser accepts it), `format_date_for_api` fails
with the invalid-date-format error carrying the input; no other format
is ever accepted. -/
theorem format_date_for_api_rejects_other_formats (s : String)
    (h1 : parseDDMMYYYY s.toList = none) (h2 : parseYYYYMMDD s.toList = none) :
    format_date_for_api s = .error (.invalidFormat s) := by
  simp only [String.toList] at h1 h2
  simp only [format_date_for_api]
  split_ifs <;> simp [h1, h2]

/-- C6 witness: `"July 1st 2025"` matches neither format and is
rejected with the error carrying the input. -/
theorem format_date_for_api_rejects_other_formats_witness :
    format_date_for_api "July 1st 2025" = .error (.invalidFormat "July 1st 2025") :=
  format_date_for_api_rejects_other_formats "July 1st 2025" rfl rfl

/-- C3 (amended): for every state with a cached credential (nonempty
token) whose expiry is strictly after the current time, the token
function returns the cached token, leaves the cache unchanged and
issues no token-endpoint request; consequently a second sequential call
still before the expiry issues no request either — two sequential calls
from such a state make zero token-endpoint requests in total (not one). -/
theorem getAccessToken_cache_hit (env : Env) (st : Cache) (now now2 : Int)
    (ep ep2 : HttpOutcome TokenBody) (tok : String) (exp : Int)
    (h1 : st.accessToken = some tok) (h2 : tok ≠ "")
    (h3 : st.tokenExpiry = some exp) (h4 : now < exp) (h5 : now2 < exp) :
    _get_amadeus_access_token env st now ep = ⟨.ok tok, st, 0⟩ ∧
      (_get_amadeus_access_token env
        (_get_amadeus_access_token env st now ep).cache now2 ep2).requests = 0 := by
  obtain ⟨a, e⟩ := st
  simp only at h1 h3
  subst h1 h3
  have hfst :
      _get_amadeus_access_token env ⟨some tok, some exp⟩ now ep =
        ⟨.ok tok, ⟨some tok, some exp⟩, 0⟩ := by
    simp [_get_amadeus_access_token, h2, h4]
  refine ⟨hfst, ?_⟩
  rw [hfst]
  simp [_get_amadeus_access_token, h2, h5]

/-- C3 witness: a cached credential `"cached-token"` expiring at time
3600 (one hour after `now = 0`) is returned as-is at times 0 and 1. -/
theorem getAccessToken_cache_hit_witness :
    _get_amadeus_access_token ⟨some "id", some "secret"⟩
        ⟨some "cached-token", some 3600⟩ 0
        (.response 200 (some ⟨some "fresh", some 1799⟩)) =
      ⟨.ok "cached-token", ⟨some "cached-token", some 3600⟩, 0⟩ :=
  (getAccessToken_cache_hit ⟨some "id", some "secret"⟩
    ⟨some "cached-token", some 3600⟩ 0 1
    (.response 200 (some ⟨some "fresh", some 1799⟩))
    (.response 200 (some ⟨some "fresh", some 1799⟩))
    "cached-token" 3600 rfl (by decide) rfl (by decide) (by decide)).1

/-- C3 counterexample: with a cached credential expiring one hour in the
future (expiry 3600, `now = 0`), two sequential calls make zero
token-endpoint requests in total — not exactly one, as the claim
states. -/
theorem getAccessToken_two_cached_calls_zero_requests :
    (_get_amadeus_access_token ⟨some "id", some "secret"⟩
          ⟨some "cached-token", some 3600⟩ 0
          (.response 200 (some ⟨some "fresh", some 1799⟩))).requests +
        (_get_amadeus_access_token ⟨some "id", some "secret"⟩
          (_get_amadeus_access_token ⟨some "id", some "secret"⟩
            ⟨some "cached-token", some 3600⟩ 0
            (.response 200 (some ⟨some "fresh", some 1799⟩))).cache 1
          (.response 200 (some ⟨some "fresh", some 1799⟩))).requests = 0 ∧
      (0 : Nat) ≠ 1 :=
  ⟨rfl, by decide⟩

/-- C7 (amended): whenever the configured client id or client secret is
absent (or empty) and the cache check does not hit, the token function
fails with the configuration `ValueError` before any network call (zero
requests, cache untouched).  With a valid cached credential the cached
token is returned regardless of the missing configuration. -/
theorem getAccessToken_missing_config_fails_fast (env : Env) (st : Cache) (now : Int)
    (ep : HttpOutcome TokenBody)
    (hmiss : truthyOpt env.clientId = false ∨ truthyOpt env.clientSecret = false)
    (hc : cacheHit st now = false) :
    _get_amadeus_access_token env st now ep =
      ⟨.error (.valueError configErrorMsg), st, 0⟩ := by
  rw [getAccessToken_miss hc]
  simp only [refreshAmadeusToken]
  rcases hmiss with h | h <;> simp [h]

/-- C7 witness: with no credentials configured and an empty cache, the
call fails with the configuration error and zero requests. -/
theorem getAccessToken_missing_config_fails_fast_witness :
    _get_amadeus_access_token ⟨none, some "secret"⟩ ⟨none, none⟩ 0 .timeout =
      ⟨.error (.valueError configErrorMsg), ⟨none, none⟩, 0⟩ :=
  getAccessToken_missing_config_fails_fast ⟨none, some "secret"⟩ ⟨none, none⟩ 0 .timeout
    (Or.inl rfl) rfl

/-- C7 counterexample: with both credentials absent but a valid cached
credential (expiry 3600, `now = 0`), the call succeeds with the cached
token instead of failing with a configuration error. -/
theorem getAccessToken_missing_config_cached_token_returned :
    _get_amadeus_access_token ⟨none, none⟩ ⟨some "cached-token", some 3600⟩ 0 .timeout =
      ⟨.ok "cached-token", ⟨some "cached-token", some 3600⟩, 0⟩ :=
  rfl

/-- C8 (amended): on the refresh path (credentials configured, no cache
hit), a non-2xx token response, a malformed body, or a body missing
`access_token` all fail — as `ConnectionError` or `ValueError` — with
the cache left untouched; but a body missing only `expires_in` is NOT
an error: the code defaults the ttl to 3500 seconds and caches the
credential with expiry `now + 3500 - 60`. -/
theorem getAccessToken_refresh_protocol (env : Env) (st : Cache) (now : Int)
    (status : Nat) (body : Option TokenBody)
    (hc : cacheHit st now = false)
    (hid : truthyOpt env.clientId = true) (hsec : truthyOpt env.clientSecret = true) :
    (400 ≤ status →
      _get_amadeus_access_token env st now (.response status body) =
        ⟨.error (.connectionError tokenFailMsg), st, 1⟩) ∧
    (status < 400 → body = none →
      _get_amadeus_access_token env st now (.response status body) =
        ⟨.error (.connectionError tokenFailMsg), st, 1⟩) ∧
    (∀ tb : TokenBody, status < 400 → body = some tb → tb.access_token = none →
      _get_amadeus_access_token env st now (.response status body) =
        ⟨.error (.valueError tokenInvalidMsg), st, 1⟩) ∧
    (∀ (tb : TokenBody) (tok : String), status < 400 → body = some tb →
        tb.access_token = some tok → tb.expires_in = none →
      _get_amadeus_access_token env st now (.response status body) =
        ⟨.ok tok, ⟨some tok, some (now + 3500 - 60)⟩, 1⟩) := by
  rw [getAccessToken_miss hc]
  refine ⟨fun h4 => ?_, fun h4 hb => ?_, fun tb h4 hb ha => ?_, fun tb tok h4 hb ha he => ?_⟩
  · simp [refreshAmadeusToken, hid, hsec, h4]
  · subst hb
    simp [refreshAmadeusToken, hid, hsec, Nat.not_le_of_lt h4]
  · subst hb
    simp [refreshAmadeusToken, hid, hsec, Nat.not_le_of_lt h4, ha]
  · subst hb
    simp [refreshAmadeusToken, hid, hsec, Nat.not_le_of_lt h4, ha, he]

/-- C8 witness: a 401 from the token endpoint fails with the protocol
`ConnectionError` and caches nothing. -/
theorem getAccessToken_refresh_protocol_witness :
    _get_amadeus_access_token ⟨some "id", some "secret"⟩ ⟨none, none⟩ 0
        (.response 401 none) =
      ⟨.error (.connectionError tokenFailMsg), ⟨none, none⟩, 1⟩ :=
  (getAccessToken_refresh_protocol ⟨some "id", some "secret"⟩ ⟨none, none⟩ 0 401 none
    rfl rfl rfl).1 (by decide)

/-- C8 counterexample: a 200 token response whose body has
`access_token` but no `expires_in` does not fail — the token is
returned and a credential is cached with the defaulted expiry
`0 + 3500 - 60 = 3440`, contradicting the claim that a missing
`expires_in` yields an authentication error without caching. -/
theorem getAccessToken_missing_expires_in_caches :
    _get_amadeus_access_token ⟨some "id", some "secret"⟩ ⟨none, none⟩ 0
        (.response 200 (some ⟨some "tok", none⟩)) =
      ⟨.ok "tok", ⟨some "tok", some 3440⟩, 1⟩ :=
  rfl

/-- C1 (amended): for every successful (status 200) flight-offers
response with at least one offer — given an obtained token and two
accepted dates — `search_flights` returns Success whose `min_price` is
the parsed price of the FIRST offer of the returned list, with that
offer's currency (default `"USD"`); the later offers are ignored, so
the result is not the minimum by price. -/
theorem search_flights_success_takes_first_offer
    (env : Env) (st : Cache) (now : Int) (ep : HttpOutcome TokenBody)
    (dep dst sd ed tok fsd fed : String)
    (offer0 : Offer) (rest : List Offer) (errs : Option (List AmadeusError))
    (t : String) (v : ℚ)
    (htok : (_get_amadeus_access_token env st now ep).result = .ok tok)
    (h1 : format_date_for_api sd = .ok fsd)
    (h2 : format_date_for_api ed = .ok fed)
    (ht : (offer0.price.getD ⟨none, none⟩).total = some t)
    (hne : t ≠ "") (hv : pyFloat t = some v) :
    search_flights env st now ep
        (.response 200 (some ⟨some (offer0 :: rest), errs⟩)) dep dst sd ed =
      ⟨.returned (.success v ((offer0.price.getD ⟨none, none⟩).currency.getD "USD")),
        (_get_amadeus_access_token env st now ep).cache,
        (_get_amadeus_access_token env st now ep).requests, 1⟩ := by
  rw [search_flights_reduce htok h1 h2]
  simp [issueFlightRequest, ht, hne, hv]

/-- C1 witness: with two offers priced `"9"` and `"5"`, the result is
the first price 9 in its currency. -/
theorem search_flights_success_takes_first_offer_witness :
    search_flights ⟨some "id", some "secret"⟩ ⟨some "tok", some 3600⟩ 0 .timeout
        (.response 200 (some ⟨some
          [⟨some ⟨some "9", some "EUR"⟩⟩, ⟨some ⟨some "5", some "EUR"⟩⟩], none⟩))
        "SFO" "DEL" "01/07/2025" "07/07/2025" =
      ⟨.returned (.success 9 "EUR"), ⟨some "tok", some 3600⟩, 0, 1⟩ :=
  search_flights_success_takes_first_offer ⟨some "id", some "secret"⟩
    ⟨some "tok", some 3600⟩ 0 .timeout "SFO" "DEL" "01/07/2025" "07/07/2025"
    "tok" "2025-07-01" "2025-07-07" ⟨some ⟨some "9", some "EUR"⟩⟩
    [⟨some ⟨some "5", some "EUR"⟩⟩] none "9" 9
    rfl rfl rfl rfl (by decide) rfl

/-- C1 counterexample: for offers priced `[300, 150, 220]` in the same
currency, `search_flights` returns Success with `min_price = 300` (the
first offer), which is not the minimum 150 the claim requires. -/
theorem search_flights_first_offer_not_min :
    search_flights ⟨some "id", some "secret"⟩ ⟨some "tok", some 3600⟩ 0 .timeout
        (.response 200 (some ⟨some
          [⟨some ⟨some "300", some "USD"⟩⟩, ⟨some ⟨some "150", some "USD"⟩⟩,
            ⟨some ⟨some "220", some "USD"⟩⟩], none⟩))
        "SFO" "DEL" "2025-07-01" "2025-07-07" =
      ⟨.returned (.success 300 "USD"), ⟨some "tok", some 3600⟩, 0, 1⟩ ∧
      (300 : ℚ) ≠ 150 :=
  ⟨rfl, by norm_num⟩

/-- Every branch of the request classification issues exactly one
flight-offers request. -/
theorem issueFlightRequest_one (cache : Cache) (n : Nat) (fep : HttpOutcome FlightBody) :
    (issueFlightRequest cache n fep).flightRequests = 1 := by
  cases fep with
  | timeout => rfl
  | connFail => rfl
  | response status body =>
    simp only [issueFlightRequest]
    repeat' first | rfl | split

/-- C2 (amended): `search_flights` performs no date-range validation:
for every query whose start and end dates are both accepted by the
normalizer and whose token is obtained, one HTTP request is issued to
the flight-offers endpoint even when the normalized start date is
chronologically after the normalized end date; no invalid-date-range
failure exists in the code. -/
theorem search_flights_no_date_range_check
    (env : Env) (st : Cache) (now : Int) (ep : HttpOutcome TokenBody)
    (fep : HttpOutcome FlightBody) (dep dst sd ed tok : String) (d1 d2 : Date)
    (htok : (_get_amadeus_access_token env st now ep).result = .ok tok)
    (hd1 : parsedDate sd = some d1) (hd2 : parsedDate ed = some d2)
    (horder : dateLt d2 d1 = true) :
    (search_flights env st now ep fep dep dst sd ed).flightRequests = 1 := by
  rw [search_flights_reduce htok (format_date_for_api_of_parsedDate hd1)
    (format_date_for_api_of_parsedDate hd2)]
  exact issueFlightRequest_one _ _ _

/-- C2 witness: start `"2025-07-10"` strictly after end `"2025-07-01"`,
yet the request is issued. -/
theorem search_flights_no_date_range_check_witness :
    (search_flights ⟨some "id", some "secret"⟩ ⟨some "tok", some 3600⟩ 0 .timeout
        (.response 200 (some ⟨some [], none⟩))
        "SFO" "DEL" "2025-07-10" "2025-07-01").flightRequests = 1 :=
  search_flights_no_date_range_check ⟨some "id", some "secret"⟩ ⟨some "tok", some 3600⟩
    0 .timeout (.response 200 (some ⟨some [], none⟩)) "SFO" "DEL"
    "2025-07-10" "2025-07-01" "tok" ⟨2025, 7, 10⟩ ⟨2025, 7, 1⟩
    rfl rfl rfl (by decide)

/-- C2 counterexample: with start `"2025-07-10"` after end
`"2025-07-01"` (both accepted by the normalizer), `search_flights` does
NOT fail before the network: it issues one HTTP request to the
flight-offers endpoint and returns the server-determined result (here
the no-offers failure), contradicting the claimed `InvalidDateRange`
failure with no request. -/
theorem search_flights_reversed_range_still_requests :
    parsedDate "2025-07-10" = some ⟨2025, 7, 10⟩ ∧
    parsedDate "2025-07-01" = some ⟨2025, 7, 1⟩ ∧
    dateLt ⟨2025, 7, 1⟩ ⟨2025, 7, 10⟩ = true ∧
    search_flights ⟨some "id", some "secret"⟩ ⟨some "tok", some 3600⟩ 0 .timeout
        (.response 200 (some ⟨some [], none⟩)) "SFO" "DEL" "2025-07-10" "2025-07-01" =
      ⟨.returned .noOffersOut, ⟨some "tok", some 3600⟩, 0, 1⟩ :=
  ⟨rfl, rfl, by decide, rfl⟩

/-- C9 (amended): `search_flights` does not inspect nested
provider-status fields of a 200 response: whatever error objects the
body carries, if its `data` array is absent or empty the generic
no-offers failure is returned — there is no distinguished
upstream-route-error classification in the code. -/
theorem search_flights_ignores_nested_status
    (env : Env) (st : Cache) (now : Int) (ep : HttpOutcome TokenBody)
    (dep dst sd ed tok fsd fed : String)
    (dataField : Option (List Offer)) (errs : Option (List AmadeusError))
    (htok : (_get_amadeus_access_token env st now ep).result = .ok tok)
    (h1 : format_date_for_api sd = .ok fsd)
    (h2 : format_date_for_api ed = .ok fed)
    (hdata : dataField = none ∨ dataField = some []) :
    search_flights env st now ep (.response 200 (some ⟨dataField, errs⟩)) dep dst sd ed =
      ⟨.returned .noOffersOut, (_get_amadeus_access_token env st now ep).cache,
        (_get_amadeus_access_token env st now ep).requests, 1⟩ := by
  rw [search_flights_reduce htok h1 h2]
  rcases hdata with rfl | rfl <;> simp [issueFlightRequest]

/-- C9 witness: a 200 body carrying an Amadeus `errors` entry with the
provider error code 141 and no data yields the generic no-offers
failure. -/
theorem search_flights_ignores_nested_status_witness :
    search_flights ⟨some "id", some "secret"⟩ ⟨some "tok", some 3600⟩ 0 .timeout
        (.response 200 (some ⟨none,
          some [⟨some "141", some "SYSTEM ERROR HAS OCCURRED", some "SYSTEM ERROR"⟩]⟩))
        "SFO" "DEL" "2025-07-01" "2025-07-07" =
      ⟨.returned .noOffersOut, ⟨some "tok", some 3600⟩, 0, 1⟩ :=
  search_flights_ignores_nested_status ⟨some "id", some "secret"⟩ ⟨some "tok", some 3600⟩
    0 .timeout "SFO" "DEL" "2025-07-01" "2025-07-07" "tok" "2025-07-01" "2025-07-07"
    none (some [⟨some "141", some "SYSTEM ERROR HAS OCCURRED", some "SYSTEM ERROR"⟩])
    rfl rfl rfl (Or.inl rfl)

/-- C9 counterexample: a 200 response whose body signals the known
upstream route error (Amadeus error code 141 in the nested `errors`
field) produces the very same outcome as a body with no error signal at
all — the generic no-offers failure — not a distinguished
upstream-route-error failure. -/
theorem search_flights_nested_error_not_distinguished :
    search_flights ⟨some "id", some "secret"⟩ ⟨some "tok", some 3600⟩ 0 .timeout
        (.response 200 (some ⟨none,
          some [⟨some "141", some "SYSTEM ERROR HAS OCCURRED", some "SYSTEM ERROR"⟩]⟩))
        "SFO" "DEL" "2025-07-05" "2025-07-09" =
      search_flights ⟨some "id", some "secret"⟩ ⟨some "tok", some 3600⟩ 0 .timeout
        (.response 200 (some ⟨none, none⟩)) "SFO" "DEL" "2025-07-05" "2025-07-09" ∧
    (search_flights ⟨some "id", some "secret"⟩ ⟨some "tok", some 3600⟩ 0 .timeout
        (.response 200 (some ⟨none,
          some [⟨some "141", some "SYSTEM ERROR HAS OCCURRED", some "SYSTEM ERROR"⟩]⟩))
        "SFO" "DEL" "2025-07-05" "2025-07-09").result = .returned .noOffersOut :=
  ⟨rfl, rfl⟩

/-- C10: for every successful flight-offers response whose first offer
lacks a total price (absent `price`, absent `total`, or an empty-string
total — all falsy in Python), `search_flights` returns the generic
no-offers failure even though the offer list is nonempty. -/
theorem search_flights_missing_total_no_success
    (env : Env) (st : Cache) (now : Int) (ep : HttpOutcome TokenBody)
    (dep dst sd ed tok fsd fed : String)
    (offer0 : Offer) (rest : List Offer) (errs : Option (List AmadeusError))
    (htok : (_get_amadeus_access_token env st now ep).result = .ok tok)
    (h1 : format_date_for_api sd = .ok fsd)
    (h2 : format_date_for_api ed = .ok fed)
    (ht : (offer0.price.getD ⟨none, none⟩).total = none ∨
      (offer0.price.getD ⟨none, none⟩).total = some "") :
    search_flights env st now ep
        (.response 200 (some ⟨some (offer0 :: rest), errs⟩)) dep dst sd ed =
      ⟨.returned .noOffersOut, (_get_amadeus_access_token env st now ep).cache,
        (_get_amadeus_access_token env st now ep).requests, 1⟩ := by
  rw [search_flights_reduce htok h1 h2]
  rcases ht with h | h <;> simp [issueFlightRequest, h]

/-- C10 witness: a nonempty offer list whose first offer has no
`total` yields the no-offers failure, not success. -/
theorem search_flights_missing_total_no_success_witness :
    search_flights ⟨some "id", some "secret"⟩ ⟨some "tok", some 3600⟩ 0 .timeout
        (.response 200 (some ⟨some
          [⟨some ⟨none, some "EUR"⟩⟩, ⟨some ⟨some "150", some "USD"⟩⟩], none⟩))
        "SFO" "DEL" "2025-07-01" "2025-07-07" =
      ⟨.returned .noOffersOut, ⟨some "tok", some 3600⟩, 0, 1⟩ :=
  search_flights_missing_total_no_success ⟨some "id", some "secret"⟩
    ⟨some "tok", some 3600⟩ 0 .timeout "SFO" "DEL" "2025-07-01" "2025-07-07"
    "tok" "2025-07-01" "2025-07-07" ⟨some ⟨none, some "EUR"⟩⟩
    [⟨some ⟨some "150", some "USD"⟩⟩] none rfl rfl rfl (Or.inl rfl)

/-- C4: a transport-level connection failure on the flight-offers GET —
a `RequestException` raised before a response object exists — makes the
`except` handler itself raise `UnboundLocalError` (it reads the unbound
local `response`), and no sibling handler catches it, so an exception
escapes `search_flights` instead of a typed failure result. -/
theorem search_flights_connection_error_escapes :
    search_flights ⟨some "id", some "secret"⟩ ⟨some "tok", some 3600⟩ 0 .timeout
        .connFail "SFO" "DEL" "2025-07-01" "2025-07-07" =
      ⟨.raised (.unboundLocal "response"), ⟨some "tok", some 3600⟩, 0, 1⟩ :=
  rfl

end TravelAgents
